import Mathlib

/-!
Verification of the OpenAtlas generic entity search/filter engine
(`openatlas/api/v03/resources/search.py`).

The Python module is shallowly embedded: Python values flowing through the
search engine become the inductive type `PyVal`, the polymorphic
`entity_values` argument of `search_entity` (sometimes a list, sometimes a
scalar date string or float) becomes `EVals`, and fallible Python code
(raising `WrongOperatorError`, `KeyError`, `ValueError`, `TypeError`)
becomes `Except Err _`.  External collaborators (the type hierarchy, the
relationship-link store) are passed explicitly as a `Ctx`, mirroring the
ambient `g.types` / database access of the original.
-/

deriving instance DecidableEq for Except

namespace OpenAtlas

/-- Exceptions the embedded code can raise: `WrongOperatorError` from
`search_entity`, plus the Python built-ins raised by dict lookups
(`KeyError`), `float()` conversion (`ValueError`) and ill-typed
comparisons / iteration (`TypeError`). -/
inductive Err where
  | wrongOperator : Err
  | keyError : String → Err
  | valueError : Err
  | typeError : Err
deriving DecidableEq, Repr

/-- A Python value as it occurs in the search engine: strings, numbers
(Python `int` and `float` compare equal across the two types, so both are
a single rational-valued constructor), and the two-element
`[link_type_id, numeric_value]` lists used by `valueTypeID` criteria. -/
inductive PyVal where
  | str : String → PyVal
  | num : Rat → PyVal
  | pair : Int → Rat → PyVal
deriving DecidableEq, Repr

/-- The polymorphic `entity_values` argument of `search_entity`: either a
Python list of values, or a bare scalar (the date string returned by
`check_if_date`, or the bare float built in `search_for_value` for
non-equality operators). -/
inductive EVals where
  | list : List PyVal → EVals
  | scalar : PyVal → EVals
deriving DecidableEq, Repr

/-- Python truthiness of an `entity_values` argument (`not entity_values`):
empty lists, empty strings and zero are falsy. -/
def pyTruthy : EVals → Bool
  | .list l => !l.isEmpty
  | .scalar (.str s) => !s.isEmpty
  | .scalar (.num q) => q != 0
  | .scalar (.pair _ _) => true

/-- `listStarts n h` : the char list `n` is an initial segment of `h`. -/
def listStarts : List Char → List Char → Bool
  | [], _ => true
  | _ :: _, [] => false
  | a :: as, b :: bs => a == b && listStarts as bs

/-- `listHas n h` : the char list `n` occurs contiguously inside `h`
(Python's `n in h` on strings). -/
def listHas (n : List Char) : List Char → Bool
  | [] => n.isEmpty
  | c :: rest => listStarts n (c :: rest) || listHas n rest

/-- Python substring containment `n in h` for strings. -/
def strHas (n h : String) : Bool := listHas n.toList h.toList

/-- Lexicographic (code-point) comparison of char lists, Python's `<` on
strings. -/
def charListLt : List Char → List Char → Bool
  | [], [] => false
  | [], _ :: _ => true
  | _ :: _, [] => false
  | a :: as, b :: bs => a < b || (a == b && charListLt as bs)

/-- Python `a < b` on strings. -/
def strLtB (s t : String) : Bool := charListLt s.toList t.toList

/-- Python `a < b` on two scalar values: defined within strings and within
numbers, a `TypeError` across types (and lexicographic between the
two-element lists). -/
def pyLt : PyVal → PyVal → Except Err Bool
  | .str s, .str t => .ok (strLtB s t)
  | .num p, .num q => .ok (decide (p < q))
  | .pair a p, .pair b q => .ok (decide (a < b) || (a == b && decide (p < q)))
  | _, _ => .error .typeError

/-- Python `item in entity_values`: list membership when `entity_values`
is a list, substring containment when it is a string (the date-scalar
case), `TypeError` when it is a bare number. -/
def pyIn (item : PyVal) : EVals → Except Err Bool
  | .list l => .ok (l.contains item)
  | .scalar (.str s) =>
      match item with
      | .str n => .ok (strHas n s)
      | _ => .error .typeError
  | .scalar (.num _) => .error .typeError
  | .scalar (.pair a q) => .ok (item == .num a || item == .num q)

/-- Python `item < entity_values` as used by the ordering branches: the
entity side must be a scalar; comparing against a list raises
`TypeError`. -/
def pyLtE (item : PyVal) : EVals → Except Err Bool
  | .scalar v => pyLt item v
  | .list _ => .error .typeError

/-- Python `item <= entity_values` (total order, so `a <= b` is
`not (b < a)`). -/
def pyLeE (item : PyVal) : EVals → Except Err Bool
  | .scalar v => do pure !(← pyLt v item)
  | .list _ => .error .typeError

/-- Python `item > entity_values`. -/
def pyGtE (item : PyVal) : EVals → Except Err Bool
  | .scalar v => pyLt v item
  | .list _ => .error .typeError

/-- Python `item >= entity_values`. -/
def pyGeE (item : PyVal) : EVals → Except Err Bool
  | .scalar v => do pure !(← pyLt item v)
  | .list _ => .error .typeError

/-- Lazy `any(...)` over a generator: stops at the first `true`, so an
exception from a later element is never raised. -/
def anyM (f : PyVal → Except Err Bool) : List PyVal → Except Err Bool
  | [] => .ok false
  | x :: xs => do
      if (← f x) then pure true else anyM f xs

/-- Lazy `all(...)` over a generator: stops at the first `false`. -/
def allM (f : PyVal → Except Err Bool) : List PyVal → Except Err Bool
  | [] => .ok true
  | x :: xs => do
      if (← f x) then allM f xs else pure false

/-- The elements produced by `for value in entity_values`: a list yields
its elements, a string yields its one-character substrings, a bare number
is not iterable (`TypeError`), the two-element list yields its members. -/
def evElems : EVals → Except Err (List PyVal)
  | .list l => .ok l
  | .scalar (.str s) => .ok (s.toList.map (fun c => .str c.toString))
  | .scalar (.num _) => .error .typeError
  | .scalar (.pair a q) => .ok [.num a, .num q]

/-- Python `item in value` for the inner `like` loop: `value` must be a
string and `item` a string, otherwise `TypeError`. -/
def pyInVal (item value : PyVal) : Except Err Bool :=
  match value with
  | .str s =>
      match item with
      | .str n => .ok (strHas n s)
      | _ => .error .typeError
  | _ => .error .typeError

/-- `any(item in value for item in search_values for value in entity_values)`:
outer loop over the search values, inner loop re-iterating the entity
values; lazy, so an empty search list raises nothing. -/
def like_or (ev : EVals) : List PyVal → Except Err Bool
  | [] => .ok false
  | item :: rest => do
      let vals ← evElems ev
      if (← anyM (fun v => pyInVal item v) vals) then pure true
      else like_or ev rest

/-- Collects the strings of a list for `' '.join`, raising `TypeError` on a
non-string element. -/
def strsOf : List PyVal → Except Err (List String)
  | [] => .ok []
  | .str s :: rest => do pure (s :: (← strsOf rest))
  | _ :: _ => .error .typeError

/-- Python `' '.join(entity_values)`. -/
def spaceJoin (ev : EVals) : Except Err String := do
  pure (String.intercalate " " (← strsOf (← evElems ev)))

/-- `all(item in ' '.join(entity_values) for item in search_values)`: the
join sits inside the generator, so it is (re-)evaluated once per search
value and never when the search list is empty. -/
def like_and (ev : EVals) : List PyVal → Except Err Bool
  | [] => .ok true
  | item :: rest => do
      let s ← spaceJoin ev
      if (← pyInVal item (.str s)) then like_and ev rest
      else pure false

/-- `search_entity` (search.py:94-141): the operator × combinator truth
table.  Falls through every branch whose guard fails; a combination with
no branch raises `WrongOperatorError`. -/
def search_entity (entity_values : EVals) (operator_ : String)
    (search_values : List PyVal) (logical_operator : String)
    (is_comparable : Bool) : Except Err Bool :=
  if !pyTruthy entity_values && (operator_ == "like" || is_comparable) then
    .ok false
  else if operator_ == "equal" && logical_operator == "or" then
    anyM (fun item => pyIn item entity_values) search_values
  else if operator_ == "equal" && logical_operator == "and" then
    allM (fun item => pyIn item entity_values) search_values
  else if operator_ == "notEqual" && logical_operator == "or" then do
    pure !(← anyM (fun item => pyIn item entity_values) search_values)
  else if operator_ == "notEqual" && logical_operator == "and" then do
    pure !(← allM (fun item => pyIn item entity_values) search_values)
  else if operator_ == "like" && logical_operator == "or" then
    like_or entity_values search_values
  else if operator_ == "like" && logical_operator == "and" then
    like_and entity_values search_values
  else if operator_ == "greaterThan" && is_comparable
      && logical_operator == "or" then
    anyM (fun item => pyLtE item entity_values) search_values
  else if operator_ == "greaterThan" && is_comparable
      && logical_operator == "and" then
    allM (fun item => pyLtE item entity_values) search_values
  else if operator_ == "greaterThanEqual" && is_comparable
      && logical_operator == "or" then
    anyM (fun item => pyLeE item entity_values) search_values
  else if operator_ == "greaterThanEqual" && is_comparable
      && logical_operator == "and" then
    allM (fun item => pyLeE item entity_values) search_values
  else if operator_ == "lesserThan" && is_comparable
      && logical_operator == "or" then
    anyM (fun item => pyGtE item entity_values) search_values
  else if operator_ == "lesserThan" && is_comparable
      && logical_operator == "and" then
    allM (fun item => pyGtE item entity_values) search_values
  else if operator_ == "lesserThanEqual" && is_comparable
      && logical_operator == "or" then
    anyM (fun item => pyGeE item entity_values) search_values
  else if operator_ == "lesserThanEqual" && is_comparable
      && logical_operator == "and" then
    allM (fun item => pyGeE item entity_values) search_values
  else
    .error .wrongOperator

/-- A relationship link as consumed by `search_for_value`: its free-text
description (possibly absent) and the id of its domain entity. -/
structure Link where
  description : Option String
  domain_id : Int
deriving DecidableEq, Repr

/-- A domain entity as consumed by `value_to_be_searched`: the attributes
the extractor reads.  Date fields carry the printed (ISO) form of the
bound, absent when the entity has none. -/
structure Entity where
  id : Int
  name : String
  description : Option String
  aliases : List String
  cidoc_code : String
  class_name : String
  types : List (Int × String)
  begin_from : Option String
  begin_to : Option String
  end_from : Option String
  end_to : Option String
deriving DecidableEq, Repr

/-- The external collaborators of the search module, passed explicitly in
place of the ambient `g.types` / database access: one level of the type
hierarchy (`Type.get_all_sub_ids` after the `g.types` lookup), transitive
relationship traversal (`get_linked_entities_id_api`), the links attached
to a value-type id (`get_links`), and a recursion-depth bound standing in
for Python's recursion limit in `get_sub_ids`. -/
structure Ctx where
  subs : PyVal → List Int
  linkedIds : PyVal → List Int
  links : Int → List Link
  fuel : Nat

/-- The Python built-in `str.lower()` (an external), modelled charwise. -/
def strLower (s : String) : String := String.mk (s.toList.map Char.toLower)

/-- Modelled from the spec: `check_if_date`
(`search_validation.py`, not in the source tree) — a present date field is
"parsed to a comparable" scalar, "an unparseable or absent date yields an
empty list". -/
def check_if_date : Option String → EVals
  | some s => .scalar (.str s)
  | none => .list []

/-- Modelled from the spec: `check_if_date_search`
(`search_validation.py`, not in the source tree) — "`is_date_comparable`
is true iff category is one of the four date fields". -/
def check_if_date_search (category : String) : Bool :=
  category == "beginFrom" || category == "beginTo"
    || category == "endFrom" || category == "endTo"

/-- `value_to_be_searched` (search.py:144-170): the per-category entity
value extractor.  An unknown category, or a missing attribute, yields the
empty list. -/
def value_to_be_searched (entity : Entity) (key : String) : EVals :=
  if key == "entityID" || key == "relationToID" || key == "valueTypeID" then
    .list [.num entity.id]
  else if key == "entityName" then
    .list [.str (strLower entity.name)]
  else if key == "entityDescription"
      && entity.description.any (fun d => !d.isEmpty) then
    .list [.str (strLower (entity.description.getD ""))]
  else if key == "entityAliases" then
    .list (entity.aliases.map (fun a => .str (strLower a)))
  else if key == "entityCidocClass" then
    .list [.str (strLower entity.cidoc_code)]
  else if key == "entitySystemClass" then
    .list [.str (strLower entity.class_name)]
  else if key == "typeName" then
    .list (entity.types.map (fun t => .str (strLower t.2)))
  else if key == "typeID" || key == "typeIDWithSubs" then
    .list (entity.types.map (fun t => .num t.1))
  else if key == "beginFrom" then check_if_date entity.begin_from
  else if key == "beginTo" then check_if_date entity.begin_to
  else if key == "endFrom" then check_if_date entity.end_from
  else if key == "endTo" then check_if_date entity.end_to
  else .list []

/-- Keeps the first occurrence of each element, dropping later
duplicates. -/
def dedupFirstAux {α : Type} [DecidableEq α] (seen : List α) :
    List α → List α
  | [] => []
  | x :: xs =>
      if x ∈ seen then dedupFirstAux seen xs
      else x :: dedupFirstAux (x :: seen) xs

/-- Modelled from the spec: `flatten_list_and_remove_duplicates`
(`util.py`, not in the source tree) — "flattened, de-duplicated". -/
def flatten_list_and_remove_duplicates {α : Type} [DecidableEq α]
    (ls : List (List α)) : List α :=
  dedupFirstAux [] ls.flatten

/-- `get_sub_ids` (search.py:21-26): collects all transitive descendant
type ids into the shared accumulator `subs`, one hierarchy level per
recursive call; the fuel bound stands in for Python's recursion limit and
is never exhausted on the finite trees considered here. -/
def get_sub_ids (ctx : Ctx) : Nat → PyVal → List Int → List Int
  | 0, _, subs => subs
  | fuel + 1, id_, subs =>
      let new_subs := ctx.subs id_
      (new_subs.foldl
        (fun acc sub => get_sub_ids ctx fuel (.num sub) acc)
        (subs ++ new_subs))

/-- A raw criterion dict as found under one category key of the parser
input: `values`, `operator`, and the optional `logicalOperator` key. -/
structure RawCriterion where
  values : List PyVal
  operator : String
  logicalOperator : Option String
deriving DecidableEq, Repr

/-- `value.lower() if isinstance(value, str) else value`. -/
def pyLower : PyVal → PyVal
  | .str s => .str (strLower s)
  | v => v

/-- Modelled from the spec: the Python built-in `float(s)` (an external,
used unguarded by `search_for_value`) on decimal literals — optional
sign, digits, optional fractional part; anything else fails. -/
def parseFloat (s : String) : Option Rat :=
  let cs := ((s.toList.dropWhile Char.isWhitespace).reverse.dropWhile
    Char.isWhitespace).reverse
  let signed : Bool × List Char :=
    match cs with
    | '-' :: rest => (true, rest)
    | '+' :: rest => (false, rest)
    | _ => (false, cs)
  let intPart := signed.2.takeWhile Char.isDigit
  let rest := signed.2.dropWhile Char.isDigit
  let digitsToNat : List Char → Nat :=
    fun ds => ds.foldl (fun a c => a * 10 + (c.toNat - 48)) 0
  let mag : Option Rat :=
    match rest with
    | [] =>
        if intPart.isEmpty then none
        else some (mkRat (digitsToNat intPart : Int) 1)
    | '.' :: frac =>
        if frac.all Char.isDigit && !(intPart.isEmpty && frac.isEmpty) then
          some (mkRat
            ((digitsToNat intPart * 10 ^ frac.length + digitsToNat frac : Nat)
              : Int)
            (10 ^ frac.length))
        else none
    | _ => none
  mag.map (fun q => if signed.1 then -q else q)

/-- The truthiness test `if link_.description and ...`. -/
def descTruthy : Option String → Bool
  | some s => !s.isEmpty
  | none => false

/-- The body of `search_for_value`'s loop for one link: skip links with a
falsy description; otherwise convert the description with `float()`
(raising `ValueError` if it does not parse), read the raw dict's
`logicalOperator` key (raising `KeyError` if absent), and evaluate the
pair's numeric value against it with the pair's own operator. -/
def search_for_value_link (values1 : Rat) (parameter : RawCriterion)
    (link_ : Link) : Except Err (Option Int) :=
  if descTruthy link_.description then do
    let f ← match parseFloat (link_.description.getD "") with
      | some f => pure f
      | none => .error .valueError
    let ev : EVals :=
      if parameter.operator == "equal" || parameter.operator == "notEqual"
      then .list [.num f] else .scalar (.num f)
    let lop ← match parameter.logicalOperator with
      | some s => pure s
      | none => .error (.keyError "logicalOperator")
    let b ← search_entity ev parameter.operator [.num values1] lop true
    pure (if b then some link_.domain_id else none)
  else
    pure none

/-- The accumulation loop of `search_for_value` over the links. -/
def search_for_value_loop (values1 : Rat) (parameter : RawCriterion) :
    List Link → Except Err (List Int)
  | [] => .ok []
  | link_ :: rest => do
      let hit ← search_for_value_link values1 parameter link_
      let ids ← search_for_value_loop values1 parameter rest
      pure (match hit with | some i => i :: ids | none => ids)

/-- `search_for_value` (search.py:76-91): resolves one
`[link_type_id, numeric_value]` pair of a `valueTypeID` criterion to the
domain ids of the matching links. -/
def search_for_value (ctx : Ctx) (values : PyVal)
    (parameter : RawCriterion) : Except Err (List Int) :=
  match values with
  | .pair linkTypeId q =>
      search_for_value_loop q parameter (ctx.links linkTypeId)
  | _ => .error .typeError

/-- `get_search_values` (search.py:59-73): category-specific resolution of
the raw values into comparable search values. -/
def get_search_values (ctx : Ctx) (category : String)
    (parameter : RawCriterion) : Except Err (List PyVal) :=
  let values := parameter.values.map pyLower
  if category == "typeIDWithSubs" then
    .ok (values ++ (flatten_list_and_remove_duplicates
      (values.map (fun v => get_sub_ids ctx ctx.fuel v []))).map
        (fun i => PyVal.num (i : Rat)))
  else if category == "relationToID" then
    .ok ((flatten_list_and_remove_duplicates
      (values.map ctx.linkedIds)).map (fun i => PyVal.num (i : Rat)))
  else if category == "valueTypeID" then do
    let ls ← aux values
    .ok ((flatten_list_and_remove_duplicates ls).map
      (fun i => PyVal.num (i : Rat)))
  else
    .ok values
where
  /-- The comprehension `[search_for_value(value, parameter) for value in
  values]`. -/
  aux : List PyVal → Except Err (List (List Int))
    | [] => .ok []
    | v :: vs => do
        let ids ← search_for_value ctx v parameter
        let rest ← aux vs
        pure (ids :: rest)

/-- A resolved criterion, the dict built by `get_search_parameter`. -/
structure ResolvedParam where
  search_values : List PyVal
  logical_operator : String
  operator : String
  category : String
  is_date : Bool
deriving DecidableEq, Repr

/-- The inner loop of `get_search_parameter` over the criterion dicts of
one category: every iteration overwrites all five keys of the shared
`parameter` dict, so the last criterion processed wins. -/
def get_search_parameter_inner (ctx : Ctx) (category : String)
    (acc : Option ResolvedParam) :
    List RawCriterion → Except Err (Option ResolvedParam)
  | [] => .ok acc
  | i :: is => do
      let sv ← get_search_values ctx category i
      get_search_parameter_inner ctx category
        (some
          { search_values := sv
            logical_operator := i.logicalOperator.getD "or"
            operator :=
              if category == "valueTypeID" then "equal" else i.operator
            category := category
            is_date := check_if_date_search category }) is

/-- The outer loop of `get_search_parameter` over the category keys of one
parser dict. -/
def get_search_parameter_outer (ctx : Ctx) (acc : Option ResolvedParam) :
    List (String × List RawCriterion) → Except Err (Option ResolvedParam)
  | [] => .ok acc
  | (category, values) :: rest => do
      let acc ← get_search_parameter_inner ctx category acc values
      get_search_parameter_outer ctx acc rest

/-- `get_search_parameter` (search.py:44-56): builds the single resolved
parameter dict of one parser element; `none` models the dict left empty
by a parser element with no criteria. -/
def get_search_parameter (ctx : Ctx)
    (parser : List (String × List RawCriterion)) :
    Except Err (Option ResolvedParam) :=
  get_search_parameter_outer ctx none parser

/-- `search_result` (search.py:35-41): evaluates one resolved criterion
against one entity; reading a key of the empty dict raises `KeyError`. -/
def search_result (entity : Entity) (p : Option ResolvedParam) :
    Except Err Bool :=
  match p with
  | none => .error (.keyError "category")
  | some p =>
      search_entity (value_to_be_searched entity p.category) p.operator
        p.search_values p.logical_operator p.is_date

/-- The comprehension `[p for p in parameter if search_result(entity, p)]`
inside `iterate_through_entities`. -/
def matching_params (entity : Entity) :
    List (Option ResolvedParam) → Except Err (List (Option ResolvedParam))
  | [] => .ok []
  | p :: ps => do
      let b ← search_result entity p
      let rest ← matching_params entity ps
      pure (if b then p :: rest else rest)

/-- `iterate_through_entities` (search.py:29-32): the entity matches when
some resolved criterion evaluates true. -/
def iterate_through_entities (entity : Entity)
    (parameter : List (Option ResolvedParam)) : Except Err Bool := do
  pure !(← matching_params entity parameter).isEmpty

/-- The comprehension `[get_search_parameter(p) for p in parser]`. -/
def resolve_criteria (ctx : Ctx) :
    List (List (String × List RawCriterion)) →
    Except Err (List (Option ResolvedParam))
  | [] => .ok []
  | p :: ps => do
      let r ← get_search_parameter ctx p
      let rest ← resolve_criteria ctx ps
      pure (r :: rest)

/-- The comprehension `[e for e in entities if
iterate_through_entities(e, parameter)]`. -/
def filter_entities (parameter : List (Option ResolvedParam)) :
    List Entity → Except Err (List Entity)
  | [] => .ok []
  | e :: es => do
      let b ← iterate_through_entities e parameter
      let rest ← filter_entities parameter es
      pure (if b then e :: rest else rest)

/-- `search` (search.py:14-18): resolve every raw criterion once, then
filter the entity list in order. -/
def search (ctx : Ctx) (entities : List Entity)
    (parser : List (List (String × List RawCriterion))) :
    Except Err (List Entity) := do
  let parameter ← resolve_criteria ctx parser
  filter_entities parameter entities

/-! ### Concrete instances used by the claim theorems -/

/-- A collaborator context with an empty type hierarchy and no links. -/
def ctx0 : Ctx :=
  { subs := fun _ => []
    linkedIds := fun _ => []
    links := fun _ => []
    fuel := 100 }

/-- A type tree with root 1, children {2, 3} of 1, and child {4} of 2. -/
def ctxTree : Ctx :=
  { ctx0 with
    subs := fun v =>
      if v == .num 1 then [2, 3] else if v == .num 2 then [4] else [] }

/-- A relationship store where id 5 is linked (with a repetition) to the
entities 7 and 9. -/
def ctxRel : Ctx :=
  { ctx0 with
    linkedIds := fun v => if v == .num 5 then [7, 9, 7] else [] }

/-- A link store: value type 1 carries a falsy-description link, a link
valued "42.5" on domain entity 7, and a description-less link; value
type 2 carries a link whose description "abc" is truthy but not a
float. -/
def ctxVal : Ctx :=
  { ctx0 with
    links := fun t =>
      if t == 1 then
        [{ description := some "", domain_id := 8 },
         { description := some "42.5", domain_id := 7 },
         { description := none, domain_id := 9 }]
      else if t == 2 then
        [{ description := some "abc", domain_id := 7 }]
      else [] }

/-- An entity with only an id, a name and defaults elsewhere. -/
def mkEnt (i : Int) (n : String) : Entity :=
  { id := i
    name := n
    description := none
    aliases := []
    cidoc_code := "E1"
    class_name := "place"
    types := []
    begin_from := none
    begin_to := none
    end_from := none
    end_to := none }

/-- An entity whose begin-from date is 1990-01-01. -/
def entBegin : Entity := { mkEnt 1 "e" with begin_from := some "1990-01-01" }

/-- A raw `relationToID` criterion with the operator `notEqual`. -/
def critRelNE : RawCriterion :=
  { values := [.num 5], operator := "notEqual", logicalOperator := some "or" }

/-- A raw criterion with operator `equal` and combinator `or`. -/
def critEqOr : RawCriterion :=
  { values := [], operator := "equal", logicalOperator := some "or" }

/-- A raw criterion with operator `greaterThanEqual` and combinator
`or`. -/
def critGeOr : RawCriterion :=
  { values := [], operator := "greaterThanEqual", logicalOperator := some "or" }

/-- A raw criterion whose dict omits the `logicalOperator` key. -/
def critNoLop : RawCriterion :=
  { values := [], operator := "equal", logicalOperator := none }

/-- A raw `typeIDWithSubs` criterion on the root type 1. -/
def critT1 : RawCriterion :=
  { values := [.num 1], operator := "equal", logicalOperator := some "or" }

/-- A raw `typeIDWithSubs` criterion on the root type 1 and its child 2. -/
def critT12 : RawCriterion :=
  { values := [.num 1, .num 2], operator := "equal", logicalOperator := some "or" }

/-- A raw `entityName` equality criterion on one name. -/
def critName (s : String) : RawCriterion :=
  { values := [.str s], operator := "equal", logicalOperator := some "or" }

/-- `true` on a successful `Except` result. -/
def isOkE {α : Type} : Except Err α → Bool
  | .ok _ => true
  | .error _ => false

/-! ### Helper lemmas -/

theorem exists_ok_of_isOkE {α : Type} {r : Except Err α}
    (h : isOkE r = true) : ∃ v, r = .ok v := by
  cases r with
  | ok v => exact ⟨v, rfl⟩
  | error e => simp [isOkE] at h

/-! ### Claim theorems -/

/-- C2, counterexample: for an entity whose extracted `beginFrom` value is
the date 1990-01-01 and the single search value 2000-01-01 with operator
`greaterThan` and `is_date_comparable` true, the evaluator does NOT
return true (under either combinator): the branch computes
`search_value < entity_value`, i.e. `"2000-01-01" < "1990-01-01"`, which
is false. -/
theorem C2_counterexample :
    search_entity (value_to_be_searched entBegin "beginFrom") "greaterThan"
        [.str "2000-01-01"] "or" true ≠ .ok true
      ∧ search_entity (value_to_be_searched entBegin "beginFrom")
        "greaterThan" [.str "2000-01-01"] "and" true ≠ .ok true := by
  decide

/-- C2, amended: for an entity whose extracted `beginFrom` value is the
date 1990-01-01 and a criterion with the single search value 2000-01-01,
operator `greaterThan` and `is_date_comparable` true, the evaluator
returns false (the search bound 2000-01-01 is not less than the entity
value 1990-01-01), under either combinator. -/
theorem C2_beginFrom_greaterThan_is_false :
    search_entity (value_to_be_searched entBegin "beginFrom") "greaterThan"
        [.str "2000-01-01"] "or" true = .ok false
      ∧ search_entity (value_to_be_searched entBegin "beginFrom")
        "greaterThan" [.str "2000-01-01"] "and" true = .ok false := by
  decide

/-- C5: for every search-values list and every combinator, if
`entity_values` is empty (falsy) and the operator is `like` or the
criterion is date-comparable, the evaluator returns false without
raising. -/
theorem C5_empty_entity_values_false (ev : EVals) (op : String)
    (sv : List PyVal) (lop : String) (cmp : Bool)
    (hfalsy : pyTruthy ev = false) (hop : op = "like" ∨ cmp = true) :
    search_entity ev op sv lop cmp = .ok false := by
  rcases hop with rfl | rfl <;> simp [search_entity, hfalsy]

/-- C5 witness: empty entity values with operator `like` and empty search
values return false, as does a date-comparable criterion on an absent
date. -/
theorem C5_witness :
    search_entity (.list []) "like" [] "or" false = .ok false
      ∧ search_entity (.list []) "equal" [.num 3] "and" true = .ok false :=
  ⟨C5_empty_entity_values_false (.list []) "like" [] "or" false rfl
      (Or.inl rfl),
   C5_empty_entity_values_false (.list []) "equal" [.num 3] "and" true rfl
      (Or.inr rfl)⟩

/-- C4: with truthy entity values, an operator outside the known set, or
an ordering operator used while `is_date_comparable` is false, raises
`WrongOperatorError` for every combinator (the combinator and search
values are arbitrary). -/
theorem C4_wrong_operator_raises (ev : EVals) (op : String)
    (sv : List PyVal) (lop : String) (cmp : Bool)
    (htr : pyTruthy ev = true)
    (hop : op ∉ ["equal", "notEqual", "like", "greaterThan",
        "greaterThanEqual", "lesserThan", "lesserThanEqual"]
      ∨ (op ∈ ["greaterThan", "greaterThanEqual", "lesserThan",
          "lesserThanEqual"] ∧ cmp = false)) :
    search_entity ev op sv lop cmp = .error .wrongOperator := by
  rcases hop with hop | ⟨hmem, rfl⟩
  · simp only [List.mem_cons, List.not_mem_nil, or_false, not_or] at hop
    obtain ⟨h1, h2, h3, h4, h5, h6, h7⟩ := hop
    simp [search_entity, htr, h1, h2, h3, h4, h5, h6, h7]
  · simp only [List.mem_cons, List.not_mem_nil, or_false] at hmem
    rcases hmem with rfl | rfl | rfl | rfl <;> simp [search_entity, htr]

/-- C4 witness: the unknown operator "contains" raises, and so does
`greaterThan` on a non-date-comparable criterion with truthy entity
values. -/
theorem C4_witness :
    search_entity (.list [.str "x"]) "contains" [.str "x"] "or" false
        = .error .wrongOperator
      ∧ search_entity (.list [.str "x"]) "greaterThan" [.str "x"] "and"
        false = .error .wrongOperator :=
  ⟨C4_wrong_operator_raises (.list [.str "x"]) "contains" [.str "x"] "or"
      false rfl (Or.inl (by decide)),
   C4_wrong_operator_raises (.list [.str "x"]) "greaterThan" [.str "x"]
      "and" false rfl (Or.inr ⟨by decide, rfl⟩)⟩

theorem ok_bind {α β : Type} (a : α) (f : α → Except Err β) :
    ((Except.ok a : Except Err α) >>= f) = f a := rfl

theorem pure_eq_ok {α : Type} (a : α) :
    (pure a : Except Err α) = .ok a := rfl

theorem pyInVal_str_str (n h : String) :
    pyInVal (.str n) (.str h) = .ok (strHas n h) := rfl

theorem anyM_pyInVal_strs (s : String) (evs : List String) :
    anyM (fun v => pyInVal (.str s) v) (evs.map .str)
      = .ok (evs.any (fun v => strHas s v)) := by
  induction evs with
  | nil => rfl
  | cons v vs ih =>
      simp only [List.map_cons, anyM, pyInVal_str_str, ok_bind,
        List.any_cons]
      cases h : strHas s v <;> simp [h, ih, pure_eq_ok]

theorem like_or_strs (evs svs : List String) :
    like_or (.list (evs.map .str)) (svs.map .str)
      = .ok (svs.any (fun s => evs.any (fun v => strHas s v))) := by
  induction svs with
  | nil => rfl
  | cons s ss ih =>
      simp only [List.map_cons, like_or, evElems, List.any_cons, ok_bind,
        anyM_pyInVal_strs]
      cases h : evs.any (fun v => strHas s v) <;>
        simp [h, ih, ok_bind, pure_eq_ok]

theorem strsOf_map (evs : List String) : strsOf (evs.map .str) = .ok evs := by
  induction evs with
  | nil => rfl
  | cons v vs ih => simp [strsOf, ih]

theorem spaceJoin_strs (evs : List String) :
    spaceJoin (.list (evs.map .str)) = .ok (String.intercalate " " evs) := by
  simp [spaceJoin, evElems, strsOf_map, ok_bind, pure_eq_ok,
    String.intercalate]

theorem like_and_strs (evs svs : List String) :
    like_and (.list (evs.map .str)) (svs.map .str)
      = .ok (svs.all (fun s => strHas s (String.intercalate " " evs))) := by
  induction svs with
  | nil => rfl
  | cons s ss ih =>
      simp only [List.map_cons, like_and, List.all_cons, spaceJoin_strs,
        ok_bind, pyInVal_str_str]
      cases h : strHas s (String.intercalate " " evs) <;>
        simp [h, ih, ok_bind, pure_eq_ok]

/-- C8: on a non-empty list of string entity values and string search
values, `like`/`or` is true iff some search value is a substring of some
entity value, and `like`/`and` is true iff every search value is a
substring of the space-joined entity values; in particular for entity
values ["san francisco"], the search ["san", "cisco"] is true in both
modes and ["rome"] false in both modes (witness). -/
theorem C8_like_truth_table (evs svs : List String) (cmp : Bool)
    (hne : evs ≠ []) :
    search_entity (.list (evs.map .str)) "like" (svs.map .str) "or" cmp
        = .ok (svs.any (fun s => evs.any (fun v => strHas s v)))
      ∧ search_entity (.list (evs.map .str)) "like" (svs.map .str) "and" cmp
        = .ok (svs.all (fun s => strHas s (String.intercalate " " evs))) := by
  have ht : pyTruthy (.list (evs.map .str)) = true := by
    cases evs with
    | nil => exact absurd rfl hne
    | cons a l => rfl
  constructor
  · simp [search_entity, ht, like_or_strs]
  · simp [search_entity, ht, like_and_strs]

/-- C8 witness: the spec's concrete instances evaluated through the
truth-table theorem. -/
theorem C8_witness :
    search_entity (.list [.str "san francisco"]) "like"
        [.str "san", .str "cisco"] "or" false = .ok true
      ∧ search_entity (.list [.str "san francisco"]) "like"
        [.str "san", .str "cisco"] "and" false = .ok true
      ∧ search_entity (.list [.str "san francisco"]) "like"
        [.str "rome"] "or" false = .ok false
      ∧ search_entity (.list [.str "san francisco"]) "like"
        [.str "rome"] "and" false = .ok false :=
  ⟨((C8_like_truth_table ["san francisco"] ["san", "cisco"] false
      (by decide)).1).trans (by decide),
   ((C8_like_truth_table ["san francisco"] ["san", "cisco"] false
      (by decide)).2).trans (by decide),
   ((C8_like_truth_table ["san francisco"] ["rome"] false
      (by decide)).1).trans (by decide),
   ((C8_like_truth_table ["san francisco"] ["rome"] false
      (by decide)).2).trans (by decide)⟩

theorem matching_params_ok (e : Entity) :
    ∀ ps : List (Option ResolvedParam),
      (∀ p ∈ ps, isOkE (search_result e p) = true) →
      matching_params e ps
        = .ok (ps.filter (fun p => search_result e p == .ok true)) := by
  intro ps
  induction ps with
  | nil => intro _; rfl
  | cons p ps ih =>
      intro h
      obtain ⟨b, hb⟩ := exists_ok_of_isOkE (h p (List.mem_cons_self p ps))
      have ih2 := ih (fun q hq => h q (List.mem_cons_of_mem p hq))
      simp only [matching_params, hb, ok_bind, ih2, List.filter_cons]
      cases b <;> simp [hb, pure_eq_ok]

theorem bool_filter_any {α : Type} (f : α → Bool) :
    ∀ l : List α, (!(l.filter f).isEmpty) = l.any f := by
  intro l
  induction l with
  | nil => rfl
  | cons a l ih =>
      cases h : f a <;> simp [List.filter_cons, h, ih, List.any_cons]

theorem iterate_ok (e : Entity) (ps : List (Option ResolvedParam))
    (h : ∀ p ∈ ps, isOkE (search_result e p) = true) :
    iterate_through_entities e ps
      = .ok (ps.any (fun p => search_result e p == .ok true)) := by
  simp [iterate_through_entities, matching_params_ok e ps h, ok_bind,
    pure_eq_ok, bool_filter_any]

theorem filter_entities_ok (params : List (Option ResolvedParam)) :
    ∀ es : List Entity,
      (∀ e ∈ es, ∀ p ∈ params, isOkE (search_result e p) = true) →
      filter_entities params es
        = .ok (es.filter
            (fun e => params.any (fun p => search_result e p == .ok true))) := by
  intro es
  induction es with
  | nil => intro _; rfl
  | cons e es ih =>
      intro h
      have h1 := iterate_ok e params
        (fun p hp => h e (List.mem_cons_self e es) p hp)
      have ih2 := ih (fun x hx p hp => h x (List.mem_cons_of_mem e hx) p hp)
      simp only [filter_entities, h1, ok_bind, ih2, List.filter_cons]
      cases hany : params.any (fun p => search_result e p == .ok true) <;>
        simp [pure_eq_ok]

/-- C3: whenever resolution of all raw criteria succeeds and every
(entity, resolved criterion) evaluation succeeds, `search` returns
exactly the entities for which at least one resolved criterion evaluates
true, in the input order (a `List.filter` of the input); each criterion
is evaluated with its own `logical_operator` (`search_result` reads only
the fields of that criterion), and criteria are combined with an
existential (`List.any`), i.e. OR-ed at the top level. -/
theorem C3_search_or_across_criteria (ctx : Ctx) (entities : List Entity)
    (parser : List (List (String × List RawCriterion)))
    (params : List (Option ResolvedParam))
    (hres : resolve_criteria ctx parser = .ok params)
    (heval : ∀ e ∈ entities, ∀ p ∈ params, isOkE (search_result e p) = true) :
    search ctx entities parser
      = .ok (entities.filter
          (fun e => params.any (fun p => search_result e p == .ok true))) := by
  simp [search, hres, ok_bind, filter_entities_ok params entities heval]

/-- C3 witness: two entity-name criteria, one matching entity A only and
one matching entity B only; `search [A, B, C]` keeps exactly A and B, in
order. -/
theorem C3_witness :
    search ctx0 [mkEnt 1 "A", mkEnt 2 "B", mkEnt 3 "C"]
        [[("entityName", [critName "A"])], [("entityName", [critName "b"])]]
      = .ok [mkEnt 1 "A", mkEnt 2 "B"] :=
  (C3_search_or_across_criteria ctx0
      [mkEnt 1 "A", mkEnt 2 "B", mkEnt 3 "C"]
      [[("entityName", [critName "A"])], [("entityName", [critName "b"])]]
      [some { search_values := [.str "a"], logical_operator := "or",
              operator := "equal", category := "entityName",
              is_date := false },
       some { search_values := [.str "b"], logical_operator := "or",
              operator := "equal", category := "entityName",
              is_date := false }]
      (by decide) (by decide)).trans (by decide)

theorem error_bind {α β : Type} (e : Err) (f : α → Except Err β) :
    ((Except.error e : Except Err α) >>= f) = .error e := rfl

theorem get_search_parameter_inner_last (ctx : Ctx) (category : String) :
    ∀ (is : List RawCriterion) (i2 : RawCriterion)
      (acc : Option ResolvedParam),
      (∀ j ∈ is, isOkE (get_search_values ctx category j) = true) →
      get_search_parameter_inner ctx category acc (is ++ [i2])
        = get_search_parameter_inner ctx category acc [i2] := by
  intro is
  induction is with
  | nil => intro i2 acc _; rfl
  | cons j js ih =>
      intro i2 acc h
      obtain ⟨v, hv⟩ := exists_ok_of_isOkE (h j (List.mem_cons_self j js))
      simp only [List.cons_append, get_search_parameter_inner, hv, ok_bind]
      exact (ih i2 _ (fun k hk => h k (List.mem_cons_of_mem j hk))).trans rfl

/-- C9: when a single raw parser dict holds several criteria under the
same category key, the resolved parameter is the one built from the last
criterion (each loop iteration overwrites all fields), provided the
earlier criteria resolve without error; consequently the whole search
behaves as if only the last same-category criterion had been supplied. -/
theorem C9_last_criterion_wins (ctx : Ctx) (category : String)
    (is : List RawCriterion) (i2 : RawCriterion)
    (h : ∀ j ∈ is, isOkE (get_search_values ctx category j) = true) :
    get_search_parameter ctx [(category, is ++ [i2])]
        = get_search_parameter ctx [(category, [i2])]
      ∧ ∀ entities : List Entity,
        search ctx entities [[(category, is ++ [i2])]]
          = search ctx entities [[(category, [i2])]] := by
  have hmain : get_search_parameter ctx [(category, is ++ [i2])]
      = get_search_parameter ctx [(category, [i2])] := by
    simp only [get_search_parameter, get_search_parameter_outer]
    rw [get_search_parameter_inner_last ctx category is i2 none h]
  refine ⟨hmain, fun entities => ?_⟩
  simp only [search, resolve_criteria, hmain]

/-- C9 witness: a duplicate `entityName` criterion pair; the earlier
criterion (matching nothing) is discarded, and the search over two
entities equals the search with only the later criterion. -/
theorem C9_witness :
    get_search_parameter ctx0 [("entityName", [critName "x", critName "b"])]
        = get_search_parameter ctx0 [("entityName", [critName "b"])]
      ∧ search ctx0 [mkEnt 1 "A", mkEnt 2 "B"]
          [[("entityName", [critName "x", critName "b"])]]
        = search ctx0 [mkEnt 1 "A", mkEnt 2 "B"]
          [[("entityName", [critName "b"])]] :=
  ⟨(C9_last_criterion_wins ctx0 "entityName" [critName "x"] (critName "b")
      (by decide)).1,
   (C9_last_criterion_wins ctx0 "entityName" [critName "x"] (critName "b")
      (by decide)).2 [mkEnt 1 "A", mkEnt 2 "B"]⟩

/-- C1, counterexample: a `relationToID` criterion supplied with operator
`notEqual` resolves to the flattened de-duplicated linked ids but KEEPS
operator `notEqual` (the code only overrides the operator for
`valueTypeID`), and a linked entity (id 7) is accordingly NOT matched by
the search, though under the claimed forced-`equal` semantics it would
be. -/
theorem C1_counterexample :
    get_search_parameter ctxRel [("relationToID", [critRelNE])]
        = .ok (some
            { search_values := [.num 7, .num 9]
              logical_operator := "or"
              operator := "notEqual"
              category := "relationToID"
              is_date := false })
      ∧ ("notEqual" : String) ≠ "equal"
      ∧ search ctxRel [mkEnt 7 "seven"] [[("relationToID", [critRelNE])]]
        = .ok [] := by
  refine ⟨by decide, by decide, by decide⟩

/-- C1, amended: for every raw `relationToID` criterion, the resolved
search values are exactly the flattened, de-duplicated linked entity ids
reachable from each (lowercased) given value, but the operator used at
evaluation time is the caller-supplied operator of the raw criterion
(only `valueTypeID` criteria have their operator overridden to
`equal`). -/
theorem C1_relationToID_resolution (ctx : Ctx) (i : RawCriterion) :
    get_search_parameter ctx [("relationToID", [i])]
      = .ok (some
          { search_values := (flatten_list_and_remove_duplicates
              ((i.values.map pyLower).map ctx.linkedIds)).map
                (fun k => PyVal.num (k : Rat))
            logical_operator := i.logicalOperator.getD "or"
            operator := i.operator
            category := "relationToID"
            is_date := false }) := rfl

/-- C7, counterexample: for the type tree with root 1, children {2, 3}
and grandchild {4} under 2, the `typeIDWithSubs` values [1, 2] resolve to
[1, 2, 2, 3, 4] — NOT de-duplicated, because only the appended descendant
expansion is de-duplicated while the original values are kept as
given. -/
theorem C7_counterexample :
    get_search_values ctxTree "typeIDWithSubs" critT12
        = .ok [.num 1, .num 2, .num 2, .num 3, .num 4]
      ∧ ¬ List.Nodup [PyVal.num 1, .num 2, .num 2, .num 3, .num 4] := by
  refine ⟨by decide, by decide⟩

/-- C7, amended: the resolved `typeIDWithSubs` search values are the
given ids followed by the de-duplicated flattened list of all transitive
descendant ids; duplicates can remain between the given ids and the
expansion, but for the tree root R=1 with children {2, 3} and grandchild
{4} the single value [1] resolves exactly to {1, 2, 3, 4} with no
duplicates. -/
theorem C7_typeIDWithSubs_resolution :
    get_search_values ctxTree "typeIDWithSubs" critT1
        = .ok [.num 1, .num 2, .num 3, .num 4]
      ∧ List.Nodup [PyVal.num 1, .num 2, .num 3, .num 4] := by
  refine ⟨by decide, by decide⟩

/-- C6, counterexample: a link whose description "abc" is present (truthy)
but does not parse as a float is NOT skipped: resolving the
`valueTypeID` pair fails with the float-conversion error, because the
code calls `float(link_.description)` unguarded. -/
theorem C6_counterexample :
    search_for_value ctxVal (.pair 2 40) critEqOr = .error .valueError := by
  decide

/-- C6, amended: only links with a truthy description reach evaluation —
links with an absent or empty description are skipped without error and
links whose description parses as a float are evaluated against the
pair's numeric value with the pair's own operator — but a truthy
description that does not parse as a float makes the resolution fail
with a float-conversion error instead of being skipped. -/
theorem C6_value_link_evaluation :
    search_for_value ctxVal (.pair 1 (mkRat 85 2)) critEqOr = .ok [7]
      ∧ search_for_value ctxVal (.pair 1 40) critGeOr = .ok [7]
      ∧ search_for_value ctxVal (.pair 2 40) critGeOr
        = .error .valueError := by
  refine ⟨by decide, by decide, by decide⟩

/-- C10, counterexample: with the `logicalOperator` key omitted and a link
of the given type whose description is truthy (but not a float), the
resolution fails with the float-conversion `ValueError`, not with the
missing-key lookup error — so "fails with a missing-key lookup error
whenever at least one link with a truthy description is attached" does
not hold as stated. -/
theorem C10_counterexample :
    search_for_value ctxVal (.pair 2 40) critNoLop = .error .valueError
      ∧ Err.valueError ≠ Err.keyError "logicalOperator" := by
  refine ⟨by decide, by decide⟩

theorem search_for_value_loop_keyError (q : Rat) (i : RawCriterion)
    (hnone : i.logicalOperator = none) :
    ∀ links : List Link,
      (∀ l ∈ links, descTruthy l.description = true →
        (parseFloat (l.description.getD "")).isSome = true) →
      (∃ l ∈ links, descTruthy l.description = true) →
      search_for_value_loop q i links
        = .error (.keyError "logicalOperator") := by
  intro links
  induction links with
  | nil => intro _ h; simp at h
  | cons l ls ih =>
      intro hp hs
      cases hd : descTruthy l.description with
      | true =>
          have hps := hp l (List.mem_cons_self l ls) hd
          obtain ⟨f, hf⟩ := Option.isSome_iff_exists.mp hps
          simp [search_for_value_loop, search_for_value_link, hd, hf,
            hnone, ok_bind, error_bind]
      | false =>
          have hs2 : ∃ x ∈ ls, descTruthy x.description = true := by
            rcases hs with ⟨x, hx, hxt⟩
            rcases List.mem_cons.mp hx with rfl | hx2
            · rw [hd] at hxt; exact absurd hxt (by simp)
            · exact ⟨x, hx2, hxt⟩
          have ih2 := ih
            (fun x hx ht => hp x (List.mem_cons_of_mem l hx) ht) hs2
          simp [search_for_value_loop, search_for_value_link, hd, ih2,
            ok_bind, error_bind, pure_eq_ok]

/-- C10, amended: resolving a `valueTypeID` pair whose raw dict omits the
`logicalOperator` key fails with the missing-key lookup error whenever at
least one link of the given type has a truthy description AND every
truthy description parses as a float (an unparseable truthy description
fails earlier, with the float-conversion error); elsewhere criterion
resolution defaults an absent `logicalOperator` to `or`. -/
theorem C10_missing_logicalOperator (ctx : Ctx) (linkTypeId : Int)
    (q : Rat) (i : RawCriterion)
    (hnone : i.logicalOperator = none)
    (hparse : ∀ l ∈ ctx.links linkTypeId, descTruthy l.description = true →
      (parseFloat (l.description.getD "")).isSome = true)
    (hsome : ∃ l ∈ ctx.links linkTypeId, descTruthy l.description = true) :
    search_for_value ctx (.pair linkTypeId q) i
      = .error (.keyError "logicalOperator") :=
  search_for_value_loop_keyError q i hnone (ctx.links linkTypeId)
    hparse hsome

/-- C10 witness: value type 1 carries the links with descriptions "",
"42.5" and none; with `logicalOperator` omitted the resolution fails with
the missing-key error on the first truthy link. -/
theorem C10_witness :
    search_for_value ctxVal (.pair 1 40) critNoLop
      = .error (.keyError "logicalOperator") :=
  C10_missing_logicalOperator ctxVal 1 40 critNoLop rfl
    (by decide) (by decide)

end OpenAtlas
